import Mathlib

/-!
Shallow embedding of the AI document-analysis pipeline
(`utils/ai_processor.py`, `utils/document_processor.py`,
`utils/vector_database.py`) and proofs about its retrieval/ranking,
ingestion-validation, vector-store recovery, and answer-synthesis logic.

Modelling conventions:
* Python floats are modelled as exact rationals (`ℚ`); `round(x, 3)` is
  modelled by `round3`, round-half-to-even to a multiple of `1/1000`.
* Python strings are Lean `String`s; `str.lower()` is `lower_str`
  (character-wise `Char.toLower`), `x in s` is `str_contains_sub`.
* Fallible calls (remote APIs, vector store, SQL lookups) are explicit
  parameters returning `Except`/`Option`; a raised exception is an
  `Except.error` carrying the exception message, and `try/except` blocks
  are `match`es on that value.
-/

/-- `starts_with_chars n h` is true iff the char list `h` starts with `n`. -/
def starts_with_chars : List Char → List Char → Bool
  | [], _ => true
  | _ :: _, [] => false
  | a :: as, b :: bs => a == b && starts_with_chars as bs

/-- `contains_chars n h` is true iff `n` occurs contiguously inside `h`:
the model of Python's `needle in haystack` on strings. -/
def contains_chars (needle : List Char) : List Char → Bool
  | [] => starts_with_chars needle []
  | b :: bs => starts_with_chars needle (b :: bs) || contains_chars needle bs

/-- Python `needle in hay` for strings. -/
def str_contains_sub (hay needle : String) : Bool :=
  contains_chars needle.data hay.data

/-- Python `s.lower()`, character-wise. -/
def lower_str (s : String) : String :=
  String.mk (s.data.map Char.toLower)

/-- The ChromaDB corruption-signature keywords from
`vector_database.py::_safe_collection_operation` (lines 131-136). -/
def corruption_keywords : List String :=
  ["nothing found on disk", "hnsw segment reader", "corrupted", "invalid"]

/-- `vector_database.py` lines 128-136: `error_str = str(e).lower()` and
`any(keyword in error_str for keyword in [...])`. -/
def is_corruption_message (msg : String) : Bool :=
  corruption_keywords.any (fun k => str_contains_sub (lower_str msg) k)

/-- `ai_processor.py` line 38: the transient-error signature test
`"503" in str(e) or "UNAVAILABLE" in str(e) or "500" in str(e) or "INTERNAL" in str(e)`. -/
def is_transient_message (msg : String) : Bool :=
  str_contains_sub msg "503" || str_contains_sub msg "UNAVAILABLE" ||
    str_contains_sub msg "500" || str_contains_sub msg "INTERNAL"

/-- The numerator (in thousandths) of Python `round(q, 3)`: the nearest
integer to `q * 1000`, ties going to the even integer (banker's rounding). -/
def round3_int (q : ℚ) : ℤ :=
  if q * 1000 - (Int.floor (q * 1000) : ℚ) < 1/2 then Int.floor (q * 1000)
  else if q * 1000 - (Int.floor (q * 1000) : ℚ) > 1/2 then Int.floor (q * 1000) + 1
  else if Int.floor (q * 1000) % 2 = 0 then Int.floor (q * 1000)
  else Int.floor (q * 1000) + 1

/-- Python `round(q, 3)`: round to the nearest multiple of `1/1000`,
ties going to the even multiple (banker's rounding). -/
def round3 (q : ℚ) : ℚ :=
  (round3_int q : ℚ) / 1000

theorem round3_int_ge {s : ℚ} (h : 1/2 < s) : 500 ≤ round3_int s := by
  have hf : (500 : ℤ) ≤ Int.floor (s * 1000) := by
    rw [Int.le_floor]
    push_cast
    linarith
  unfold round3_int
  split
  · exact hf
  · split
    · omega
    · split
      · exact hf
      · omega

theorem round3_int_le {s : ℚ} (h : s ≤ 1) : round3_int s ≤ 1000 := by
  have hf : Int.floor (s * 1000) ≤ 1000 := by
    have h2 : Int.floor (s * 1000) ≤ Int.floor ((1000 : ℚ)) := by
      apply Int.floor_le_floor
      linarith
    simpa using h2
  have hcase : Int.floor (s * 1000) = 1000 → s * 1000 - (Int.floor (s * 1000) : ℚ) < 1/2 := by
    intro he
    have h1 : s * 1000 ≤ 1000 := by linarith
    rw [he]
    push_cast
    linarith
  unfold round3_int
  by_cases hlt : s * 1000 - (Int.floor (s * 1000) : ℚ) < 1/2
  · rw [if_pos hlt]
    exact hf
  · rw [if_neg hlt]
    have hne : Int.floor (s * 1000) ≠ 1000 := fun he => hlt (hcase he)
    have hf' : Int.floor (s * 1000) ≤ 999 := by omega
    split
    · omega
    · split
      · omega
      · omega

theorem round3_ge_of_half_lt {s : ℚ} (h : 1/2 < s) : 1/2 ≤ round3 s := by
  unfold round3
  rw [le_div_iff₀ (by norm_num : (0:ℚ) < 1000)]
  have hn : ((500 : ℤ) : ℚ) ≤ (round3_int s : ℚ) := by exact_mod_cast round3_int_ge h
  push_cast at hn
  linarith

theorem round3_le_one {s : ℚ} (h : s ≤ 1) : round3 s ≤ 1 := by
  unfold round3
  rw [div_le_one (by norm_num : (0:ℚ) < 1000)]
  have hn : (round3_int s : ℚ) ≤ ((1000 : ℤ) : ℚ) := by exact_mod_cast round3_int_le h
  push_cast at hn
  linarith

namespace AIProcessor

/-- `ai_processor.py::_retry_with_backoff`, inner loop.  `f i` is the outcome
of the wrapped API call on attempt `i` (`Except.error` = raised exception),
`jitter i` models `random.uniform(0, 1)` on attempt `i`.  Arguments: the
remaining number of loop iterations, then the current attempt index.
Returns (result, sleep delays performed, number of calls to `f`). -/
def retry_loop {α : Type} (f : ℕ → Except String α) (baseDelay : ℚ) (jitter : ℕ → ℚ) :
    ℕ → ℕ → Option α × List ℚ × ℕ
  | 0, _ => (none, [], 0)
  | rem + 1, i =>
    match f i with
    | .ok v => (some v, [], 1)
    | .error e =>
      if is_transient_message e then
        if rem = 0 then (none, [], 1)
        else
          let rest := retry_loop f baseDelay jitter rem (i + 1)
          (rest.1, (baseDelay * 2 ^ i + jitter i) :: rest.2.1, rest.2.2 + 1)
      else (none, [], 1)

/-- `ai_processor.py::_retry_with_backoff` (lines 31-51): run `f` for up to
`maxRetries` attempts, sleeping `baseDelay * 2 ** attempt + uniform(0,1)`
between transient-error attempts; any non-transient error, or exhaustion,
yields `none` (the function never re-raises). -/
def retry_with_backoff {α : Type} (f : ℕ → Except String α) (maxRetries : ℕ)
    (baseDelay : ℚ) (jitter : ℕ → ℚ) : Option α × List ℚ × ℕ :=
  retry_loop f baseDelay jitter maxRetries 0

/-- A node of an extracted flowchart (`function_call` schema). -/
structure FlowNode where
  shape : String
  label : String
deriving DecidableEq

/-- An edge of an extracted flowchart; an empty `label` models an absent one. -/
structure FlowEdge where
  from_node : String
  to_node : String
  label : String
deriving DecidableEq

/-- The flowchart payload returned by the `analyze_document_page` function
call; empty string / empty list model absent (falsy) fields. -/
structure Flowchart where
  title : String
  nodes : List FlowNode
  edges : List FlowEdge
  explanation : String
deriving DecidableEq

/-- Python `s.replace('\n', ' ').strip()`, used throughout
`ai_processor.py` to clean extracted text. -/
def clean_text (s : String) : String :=
  (s.replace "\n" " ").trim

/-- `ai_processor.py::_flowchart_to_text` (lines 53-81): renders the
flowchart JSON as readable text (title, node lines, edge lines under an
"Alur:" header, then the explanation), joined by newlines.  The single
quotes Python puts around an edge label are elided. -/
def flowchart_to_text (fc : Flowchart) : String :=
  let titleParts := if fc.title ≠ "" then [clean_text fc.title] else []
  let nodeParts := fc.nodes.map (fun n =>
    "Node (" ++ n.shape ++ "): " ++ clean_text n.label)
  let edgeParts :=
    if fc.edges ≠ [] then
      "\nAlur:" :: fc.edges.map (fun e =>
        let base := "  Dari " ++ e.from_node ++ " ke " ++ e.to_node
        if e.label ≠ "" then base ++ " dengan label " ++ clean_text e.label else base)
    else []
  let explParts :=
    if fc.explanation ≠ "" then ["\nPenjelasan: " ++ clean_text fc.explanation] else []
  String.intercalate "\n" (titleParts ++ nodeParts ++ edgeParts ++ explParts)

/-- The `extracted_text` block of the `analyze_document_page` schema. -/
structure TextBlock where
  text : String
  explanation : String
deriving DecidableEq

/-- The parsed arguments of one `analyze_document_page` function call;
`none` models an absent or null (falsy) block. -/
structure PageArgs where
  extracted_text : Option TextBlock
  flowchart : Option Flowchart
deriving DecidableEq

/-- The structured content of an extracted element.  In the source this is
a JSON string (`json.dumps`); serialization is abstracted to the
structured value itself. -/
inductive ContentVal
  | textContent (text explanation : String)
  | flowContent (fc : Flowchart)
deriving DecidableEq

/-- One element extracted from a page
(`{'element_type': ..., 'content_json': ..., 'plain_text': ...}`). -/
structure ExtractedElement where
  element_type : String
  content : ContentVal
  plain_text : String
deriving DecidableEq

/-- `ai_processor.py::process_png_page` (lines 135-175), element assembly
from one parsed `analyze_document_page` function call: an element typed
`TEXT` when a non-empty cleaned text block is present, then an element
typed `FLOWCHART` when the flowchart payload has a title, nodes or edges
and renders to non-blank text. -/
def process_png_page (args : PageArgs) : List ExtractedElement :=
  let textElems :=
    match args.extracted_text with
    | none => []
    | some tb =>
      let text_content := clean_text tb.text
      let explanation_content := clean_text tb.explanation
      if text_content ≠ "" then
        [{ element_type := "TEXT",
           content := .textContent text_content explanation_content,
           plain_text := (text_content ++ " \n\nPenjelasan: " ++ explanation_content).trim }]
      else []
  let flowElems :=
    match args.flowchart with
    | none => []
    | some fc =>
      if fc.title ≠ "" ∨ fc.nodes ≠ [] ∨ fc.edges ≠ [] then
        if (flowchart_to_text fc).trim ≠ "" then
          [{ element_type := "FLOWCHART",
             content := .flowContent fc,
             plain_text := flowchart_to_text fc }]
        else []
      else []
  textElems ++ flowElems

end AIProcessor

namespace DocumentProcessor

/-- `document_processor.py::_validate_element_type` (lines 403-406):
`supported_types = ['ALL_TEXT', 'FLOWCHART']`. -/
def validate_element_type (element_type : String) : Bool :=
  ["ALL_TEXT", "FLOWCHART"].contains element_type

/-- The element-ingestion loop of `document_processor.py::_process_png_page`
(lines 132-145): elements failing `_validate_element_type` are skipped with
a warning; the rest are persisted as `PageElement` rows. -/
def ingest_elements (es : List AIProcessor.ExtractedElement) :
    List AIProcessor.ExtractedElement :=
  es.filter (fun e => validate_element_type e.element_type)

/-- The vector-indexing step of `_process_png_page` (lines 147-159): of the
persisted elements, those with non-empty `plain_text` whose embedding call
returns a truthy (non-null, non-empty) vector are added to the vector
store.  `embed` models `AIProcessor.generate_embeddings`. -/
def indexed_elements (es : List AIProcessor.ExtractedElement)
    (embed : String → Option (List ℚ)) : List AIProcessor.ExtractedElement :=
  (ingest_elements es).filter (fun e =>
    decide (e.plain_text ≠ "") &&
      match embed e.plain_text with
      | none => false
      | some [] => false
      | some (_ :: _) => true)

/-- One metadata entry of a ChromaDB query result; `none` models a missing
or falsy `element_id` (skipped by the loop with `continue`). -/
structure Meta where
  element_id : Option ℕ
deriving DecidableEq

/-- The `PageElement` columns fetched by the SQL join in
`search_similar_content` (lines 252-254). -/
structure ElementRow where
  element_type : String
  plain_text : String
  content_json : String
deriving DecidableEq

/-- One evidence item of `search_similar_content` output (lines 265-272). -/
structure Evidence where
  element_type : String
  plain_text : String
  content_json : String
  similarity_score : ℚ
  page_number : ℤ
  element_id : ℕ
deriving DecidableEq

/-- The shape of `VectorDatabaseManager.search_similar_elements` output
(ChromaDB query result): parallel outer lists per query, inner lists per
hit. -/
structure SearchResult where
  metadatas : List (List Meta)
  distances : List (List ℚ)
deriving DecidableEq

/-- The type-based boost of `search_similar_content` (lines 260-262):
`if element.element_type == 'FLOWCHART': similarity_score *= 1.1;
similarity_score = min(similarity_score, 1.0)`. -/
def boost_score (element_type : String) (s : ℚ) : ℚ :=
  if element_type = "FLOWCHART" then min (s * (11/10)) 1 else s

/-- The hit-collection loop of `search_similar_content` (lines 247-272),
walking `metadatas[0]` with the matching positions of `distances[0]`:
entries without a truthy `element_id` or without a matching SQL row are
skipped (their distance slot is consumed unread); for a found element the
similarity is `1 - distance`, boosted by type, and the hit is kept (with
its score rounded to 3 decimals) iff the boosted similarity exceeds 0.5.
`none` models an `IndexError` on `distances[0][i]` reaching the function's
`except` handler. -/
def collect_hits (lookup : ℕ → Option (ElementRow × ℤ)) :
    List Meta → List ℚ → Option (List Evidence)
  | [], _ => some []
  | m :: ms, ds =>
    match m.element_id with
    | none => collect_hits lookup ms ds.tail
    | some eid =>
      match lookup eid with
      | none => collect_hits lookup ms ds.tail
      | some (el, page) =>
        match ds with
        | [] => none
        | d :: rest =>
          let s := boost_score el.element_type (1 - d)
          match collect_hits lookup ms rest with
          | none => none
          | some hits =>
            if s > 1/2 then
              some ({ element_type := el.element_type,
                      plain_text := el.plain_text,
                      content_json := el.content_json,
                      similarity_score := round3 s,
                      page_number := page,
                      element_id := eid } :: hits)
            else some hits

/-- Stable descending insertion by `similarity_score`: an element is placed
after every already-placed element with a score at least as large, matching
the stable descending order of Python `list.sort(key=..., reverse=True)`. -/
def insert_desc (x : Evidence) : List Evidence → List Evidence
  | [] => [x]
  | y :: ys => if y.similarity_score ≤ x.similarity_score then x :: y :: ys
               else y :: insert_desc x ys

/-- Python `list.sort(key=lambda x: x['similarity_score'], reverse=True)`
(lines 275 and 286): stable descending sort by score. -/
def sort_desc : List Evidence → List Evidence
  | [] => []
  | x :: xs => insert_desc x (sort_desc xs)

/-- The per-page filter of `search_similar_content` (lines 278-282): a
Python dict keyed by `page_number`, keeping the first element seen for
each page.  `seen` is the set of pages already in the dict. -/
def dedup_by_page (seen : List ℤ) : List Evidence → List Evidence
  | [] => []
  | x :: xs =>
    if x.page_number ∈ seen then dedup_by_page seen xs
    else x :: dedup_by_page (x.page_number :: seen) xs

/-- `document_processor.py::search_similar_content` (lines 226-292).
`query_embedding` is the result of `generate_embeddings` on the query
(`none` or an empty vector is falsy), `results` the vector-store response
(`none` models a store failure), `lookup` the SQL join from an element id
to its `PageElement` row and page number.  Collected hits are sorted
descending by (rounded) score, deduplicated per page first-seen-wins,
sorted again, and truncated to `final_results[:1]`. -/
def search_similar_content (query_embedding : Option (List ℚ))
    (results : Option SearchResult) (lookup : ℕ → Option (ElementRow × ℤ)) :
    List Evidence :=
  match query_embedding with
  | none => []
  | some [] => []
  | some (_ :: _) =>
    match results with
    | none => []
    | some r =>
      match r.metadatas with
      | [] => []
      | firstMetas :: _ =>
        match firstMetas with
        | [] => []
        | _ :: _ =>
          match collect_hits lookup firstMetas (r.distances.headD []) with
          | none => []
          | some hits =>
            let sorted := sort_desc hits
            let deduped := dedup_by_page [] sorted
            let final := sort_desc deduped
            final.take 1

end DocumentProcessor

namespace VectorDB

/-- The mutable state of `VectorDatabaseManager`: `collection` is `none`
when initialization or reset left no usable collection, otherwise an
abstract handle to the current (possibly recreated) collection. -/
structure VDB where
  collection : Option ℕ
deriving DecidableEq

/-- `vector_database.py::_safe_collection_operation` (lines 119-148).
`op c` is the outcome of the wrapped collection operation on collection
handle `c` (`Except.error` = raised exception); `reset` is the outcome of
`_reset_collection` (`Except.ok c` = a fresh collection handle).  Returns
(result, new state, number of reset attempts, number of calls to `op`).
On an error matching the corruption signatures the collection is reset and
the operation retried exactly once — directly, not through the wrapper —
and if reset or retry fails the original exception is re-raised. -/
def safe_collection_operation {α : Type} (op : ℕ → Except String α)
    (reset : Except String ℕ) (st : VDB) : Except String α × VDB × ℕ × ℕ :=
  let first : Except String α × ℕ :=
    match st.collection with
    | none => (.error "Vector DB not initialized.", 0)
    | some c => (op c, 1)
  match first with
  | (.ok v, a) => (.ok v, st, 0, a)
  | (.error e, a) =>
    if is_corruption_message e then
      match reset with
      | .ok newC =>
        match op newC with
        | .ok v => (.ok v, ⟨some newC⟩, 1, a + 1)
        | .error _ => (.error e, ⟨some newC⟩, 1, a + 1)
      | .error _ => (.error e, st, 1, a)
    else (.error e, st, 0, a)

/-- The public-operation wrapper pattern of `vector_database.py` (e.g.
`search_similar_elements`, lines 178-198): the operation runs through
`_safe_collection_operation` inside a `try/except` that turns any raised
exception into a `None` (or `False`) return, so no exception reaches the
caller. -/
def public_operation {α : Type} (op : ℕ → Except String α)
    (reset : Except String ℕ) (st : VDB) : Option α × VDB × ℕ × ℕ :=
  match safe_collection_operation op reset st with
  | (.ok v, st2, r, a) => (some v, st2, r, a)
  | (.error _, st2, r, a) => (none, st2, r, a)

/-- `vector_database.py::is_healthy` (lines 255-267): false when there is
no collection, otherwise true iff a `count` probe on the collection
succeeds. -/
def is_healthy (st : VDB) (count : ℕ → Except String ℕ) : Bool :=
  match st.collection with
  | none => false
  | some c =>
    match count c with
    | .ok _ => true
    | .error _ => false

/-- One embedding record held by the ChromaDB collection, with the
metadata written by `add_element_embedding` (lines 150-176). -/
structure EmbeddingRecord where
  id : String
  document_id : String
  page_number : ℤ
  element_type : String
  element_id : ℕ
  document : String
  embedding : List ℚ
deriving DecidableEq

/-- The record-level effect of `vector_database.py::
delete_document_embeddings` (lines 214-226):
`collection.delete(where={"document_id": {"$eq": str(document_id)}})`
removes every record whose `document_id` metadata equals the filter value,
and the function returns `True`. -/
def delete_document_embeddings (document_id : String)
    (records : List EmbeddingRecord) : List EmbeddingRecord × Bool :=
  (records.filter (fun rec => !(rec.document_id == document_id)), true)

end VectorDB

namespace AIProcessor

/-- `ai_processor.py::answer_question` line 228: the element text with its
type tag, `f"[{element_type}] {plain_text}"`. -/
def format_element (e : DocumentProcessor.Evidence) : String :=
  "[" ++ e.element_type ++ "] " ++ e.plain_text

/-- One step of building `context_by_page` (lines 222-229): append the
formatted element to its page's group if the page is already a key of the
dict, otherwise add a new (page, [element]) entry at the end. -/
def add_context (acc : List (ℤ × List String)) (e : DocumentProcessor.Evidence) :
    List (ℤ × List String) :=
  if acc.any (fun g => g.1 == e.page_number) then
    acc.map (fun g =>
      if g.1 == e.page_number then (g.1, g.2 ++ [format_element e]) else g)
  else acc ++ [(e.page_number, [format_element e])]

/-- `ai_processor.py::answer_question` lines 222-229: the
`context_by_page` dict, as an association list in key-insertion order. -/
def context_by_page (es : List DocumentProcessor.Evidence) : List (ℤ × List String) :=
  es.foldl add_context []

/-- Lookup of a page's group in the dict model. -/
def get_group (page : ℤ) : List (ℤ × List String) → Option (List String)
  | [] => none
  | g :: gs => if g.1 == page then some g.2 else get_group page gs

/-- Lines 231-235: each page group rendered as a labeled block, the blocks
joined by blank lines. -/
def context_text (groups : List (ℤ × List String)) : String :=
  String.intercalate "\n\n" (groups.map (fun g =>
    "--- Informasi dari Halaman " ++ toString g.1 ++ " ---\n" ++
      String.intercalate "\n" g.2))

/-- Lines 236-248: the final generative prompt built from the context text
and the question. -/
def build_prompt (question ctx : String) : String :=
  "Berdasarkan informasi dari dokumen berikut, jawablah pertanyaan yang diajukan.\n\n"
    ++ ctx
    ++ "\n\n---\nPERTANYAAN: " ++ question
    ++ "\n\nPETUNJUK JAWABAN:\n1. Jawab pertanyaan secara langsung, jelas, dan ringkas dalam Bahasa Indonesia.\n2. Sintesis informasi dari halaman-halaman yang disediakan untuk membentuk satu jawaban yang utuh dan koheren.\n3. Jika perlu merujuk pada informasi spesifik, sebutkan nomor halamannya secara natural (contoh: \"Menurut alur proses di halaman 9,..., Gambar 1. (15.X.1.1)\").\n\nJAWABAN:"

/-- The fixed fallback answer for an empty evidence list (line 220). -/
def empty_context_fallback : String :=
  "Maaf, tidak ada informasi yang relevan untuk menjawab pertanyaan Anda."

/-- `ai_processor.py::answer_question` (lines 216-262).  `callModel` is the
single inline `generate_content` call (`Except.error` = raised exception,
whose message is wrapped into an `"Error: ..."` answer by the inner
`except` handler; this call is not routed through `_retry_with_backoff`).
Returns the answer text and whether the generative model was called. -/
def answer_question (question : String)
    (elements_context : List DocumentProcessor.Evidence)
    (callModel : String → Except String String) : String × Bool :=
  match elements_context with
  | [] => (empty_context_fallback, false)
  | _ :: _ =>
    let groups := context_by_page elements_context
    let prompt := build_prompt question (context_text groups)
    match callModel prompt with
    | .ok text => (text, true)
    | .error e => ("Error: " ++ e, true)

end AIProcessor

namespace DocumentProcessor

theorem insert_desc_perm (x : Evidence) (l : List Evidence) :
    List.Perm (insert_desc x l) (x :: l) := by
  induction l with
  | nil => exact List.Perm.refl _
  | cons y ys ih =>
    unfold insert_desc
    split
    · exact List.Perm.refl _
    · exact (List.Perm.cons y ih).trans (List.Perm.swap x y ys)

theorem sort_desc_perm (l : List Evidence) : List.Perm (sort_desc l) l := by
  induction l with
  | nil => exact List.Perm.refl _
  | cons x xs ih =>
    unfold sort_desc
    exact (insert_desc_perm x (sort_desc xs)).trans (List.Perm.cons x ih)

theorem mem_sort_desc {a : Evidence} {l : List Evidence} :
    a ∈ sort_desc l ↔ a ∈ l :=
  (sort_desc_perm l).mem_iff

theorem mem_insert_desc {a x : Evidence} {l : List Evidence} :
    a ∈ insert_desc x l ↔ a = x ∨ a ∈ l := by
  rw [(insert_desc_perm x l).mem_iff, List.mem_cons]

theorem insert_desc_pairwise {x : Evidence} {l : List Evidence}
    (h : l.Pairwise (fun a b => b.similarity_score ≤ a.similarity_score)) :
    (insert_desc x l).Pairwise (fun a b => b.similarity_score ≤ a.similarity_score) := by
  induction l with
  | nil => simp [insert_desc]
  | cons y ys ih =>
    rw [List.pairwise_cons] at h
    unfold insert_desc
    split
    · rename_i hyx
      rw [List.pairwise_cons]
      refine ⟨?_, List.pairwise_cons.mpr h⟩
      intro z hz
      rcases List.mem_cons.mp hz with hz | hz
      · exact hz ▸ hyx
      · exact le_trans (h.1 z hz) hyx
    · rename_i hyx
      rw [List.pairwise_cons]
      refine ⟨?_, ih h.2⟩
      intro z hz
      rcases mem_insert_desc.mp hz with hz | hz
      · exact hz ▸ le_of_not_le hyx
      · exact h.1 z hz

theorem sort_desc_sorted (l : List Evidence) :
    (sort_desc l).Pairwise (fun a b => b.similarity_score ≤ a.similarity_score) := by
  induction l with
  | nil => simp [sort_desc]
  | cons x xs ih => exact insert_desc_pairwise ih

theorem dedup_subset {seen : List ℤ} {l : List Evidence} :
    ∀ a ∈ dedup_by_page seen l, a ∈ l := by
  induction l generalizing seen with
  | nil => simp [dedup_by_page]
  | cons x xs ih =>
    intro a ha
    unfold dedup_by_page at ha
    split at ha
    · exact List.mem_cons_of_mem x (ih a ha)
    · rcases List.mem_cons.mp ha with ha | ha
      · exact ha ▸ List.mem_cons_self x xs
      · exact List.mem_cons_of_mem x (ih a ha)

theorem dedup_not_seen {seen : List ℤ} {l : List Evidence} {a : Evidence}
    (h : a ∈ dedup_by_page seen l) : a.page_number ∉ seen := by
  induction l generalizing seen with
  | nil => simp [dedup_by_page] at h
  | cons x xs ih =>
    unfold dedup_by_page at h
    split at h
    · exact ih h
    · rename_i hx
      rcases List.mem_cons.mp h with h | h
      · exact h ▸ hx
      · intro hmem
        exact ih h (List.mem_cons_of_mem _ hmem)

theorem dedup_pairwise (seen : List ℤ) (l : List Evidence) :
    (dedup_by_page seen l).Pairwise (fun a b => a.page_number ≠ b.page_number) := by
  induction l generalizing seen with
  | nil => simp [dedup_by_page]
  | cons x xs ih =>
    unfold dedup_by_page
    split
    · exact ih seen
    · rw [List.pairwise_cons]
      refine ⟨?_, ih _⟩
      intro b hb hbx
      exact dedup_not_seen hb (hbx ▸ List.mem_cons_self _ _)

theorem dedup_find {seen : List ℤ} {l : List Evidence} {a : Evidence}
    (h : a ∈ dedup_by_page seen l) :
    l.find? (fun h2 => h2.page_number == a.page_number) = some a := by
  induction l generalizing seen with
  | nil => simp [dedup_by_page] at h
  | cons x xs ih =>
    unfold dedup_by_page at h
    split at h
    · rename_i hx
      have hne : x.page_number ≠ a.page_number := by
        intro he
        exact dedup_not_seen h (he ▸ hx)
      rw [List.find?_cons_of_neg _ (by simpa using hne)]
      exact ih h
    · rename_i hx
      rcases List.mem_cons.mp h with h | h
      · subst h
        rw [List.find?_cons_of_pos _ (by simp)]
      · have hna : a.page_number ∉ x.page_number :: seen := dedup_not_seen h
        have hne : x.page_number ≠ a.page_number := by
          intro he
          exact hna (he ▸ List.mem_cons_self _ _)
        rw [List.find?_cons_of_neg _ (by simpa using hne)]
        exact ih h

theorem sorted_find_max {l : List Evidence}
    (hs : l.Pairwise (fun a b => b.similarity_score ≤ a.similarity_score))
    {p : Evidence → Bool} {ev : Evidence} (hf : l.find? p = some ev) :
    ∀ h ∈ l, p h = true → h.similarity_score ≤ ev.similarity_score := by
  induction l with
  | nil => simp at hf
  | cons x xs ih =>
    rw [List.pairwise_cons] at hs
    intro h hmem hp
    by_cases hx : p x = true
    · rw [List.find?_cons_of_pos _ hx] at hf
      injection hf with hf
      subst hf
      rcases List.mem_cons.mp hmem with hmem | hmem
      · exact hmem ▸ le_refl _
      · exact hs.1 h hmem
    · rw [List.find?_cons_of_neg _ hx] at hf
      rcases List.mem_cons.mp hmem with hmem | hmem
      · exact absurd (hmem ▸ hp) hx
      · exact ih hs.2 hf h hmem hp

theorem boost_le_one {t : String} {s : ℚ} (h : s ≤ 1) : boost_score t s ≤ 1 := by
  unfold boost_score
  split
  · exact min_le_right _ _
  · exact h

theorem collect_hits_scores (lookup : ℕ → Option (ElementRow × ℤ)) :
    ∀ (ms : List Meta) (ds : List ℚ) (hits : List Evidence),
      collect_hits lookup ms ds = some hits → (∀ d ∈ ds, 0 ≤ d) →
      ∀ ev ∈ hits, ∃ s : ℚ, 1/2 < s ∧ s ≤ 1 ∧ ev.similarity_score = round3 s := by
  intro ms
  induction ms with
  | nil =>
    intro ds hits hc _
    simp [collect_hits] at hc
    subst hc
    simp
  | cons m ms ih =>
    intro ds hits hc hd
    have hdtail : ∀ d ∈ ds.tail, 0 ≤ d := fun d hmem => hd d (List.mem_of_mem_tail hmem)
    unfold collect_hits at hc
    cases hm : m.element_id with
    | none =>
      rw [hm] at hc
      simp only [] at hc
      exact ih ds.tail hits hc hdtail
    | some eid =>
      rw [hm] at hc
      simp only [] at hc
      cases hl : lookup eid with
      | none =>
        rw [hl] at hc
        simp only [] at hc
        exact ih ds.tail hits hc hdtail
      | some elp =>
        obtain ⟨el, page⟩ := elp
        rw [hl] at hc
        simp only [] at hc
        cases ds with
        | nil => simp at hc
        | cons d rest =>
          simp only [] at hc
          have hrest : ∀ d2 ∈ rest, 0 ≤ d2 := fun d2 hmem =>
            hd d2 (List.mem_cons_of_mem d hmem)
          cases hc2 : collect_hits lookup ms rest with
          | none => rw [hc2] at hc; simp at hc
          | some hits2 =>
            rw [hc2] at hc
            simp only [] at hc
            have hih := ih rest hits2 hc2 hrest
            by_cases hgt : boost_score el.element_type (1 - d) > 1/2
            · rw [if_pos hgt] at hc
              injection hc with hc
              subst hc
              intro ev hev
              rcases List.mem_cons.mp hev with hev | hev
              · refine ⟨boost_score el.element_type (1 - d), hgt, ?_, by rw [hev]⟩
                have hd0 : (0 : ℚ) ≤ d := hd d (List.mem_cons_self d rest)
                exact boost_le_one (by linarith)
              · exact hih ev hev
            · rw [if_neg hgt] at hc
              injection hc with hc
              subst hc
              exact hih

theorem search_eval_cases (qe : Option (List ℚ)) (r : SearchResult)
    (lookup : ℕ → Option (ElementRow × ℤ)) :
    search_similar_content qe (some r) lookup = [] ∨
    ∃ (m1 : List Meta) (mrest : List (List Meta)) (hits : List Evidence),
      r.metadatas = m1 :: mrest ∧
      collect_hits lookup m1 (r.distances.headD []) = some hits ∧
      search_similar_content qe (some r) lookup =
        (sort_desc (dedup_by_page [] (sort_desc hits))).take 1 := by
  obtain ⟨metas, dists⟩ := r
  cases qe with
  | none => left; rfl
  | some ql =>
    cases ql with
    | nil => left; rfl
    | cons q qs =>
      cases metas with
      | nil => left; rfl
      | cons m1 mrest =>
        cases m1 with
        | nil => left; rfl
        | cons mh mt =>
          cases hc : collect_hits lookup (mh :: mt) (dists.headD []) with
          | none =>
            left
            simp only [search_similar_content]
            rw [hc]
          | some hits =>
            right
            refine ⟨mh :: mt, mrest, hits, rfl, by simpa using hc, ?_⟩
            simp only [search_similar_content]
            rw [hc]

end DocumentProcessor

namespace AIProcessor

theorem get_group_cons (p : ℤ) (g : ℤ × List String) (gs : List (ℤ × List String)) :
    get_group p (g :: gs) = if (g.1 == p) = true then some g.2 else get_group p gs :=
  rfl

theorem get_group_none_of_any_false {p : ℤ} {acc : List (ℤ × List String)}
    (h : acc.any (fun g => g.1 == p) = false) : get_group p acc = none := by
  induction acc with
  | nil => rfl
  | cons g gs ih =>
    rw [List.any_cons, Bool.or_eq_false_iff] at h
    rw [get_group_cons, if_neg (by rw [h.1]; exact Bool.false_ne_true)]
    exact ih h.2

theorem get_group_append_single {p q : ℤ} {xs : List String}
    {acc : List (ℤ × List String)} :
    get_group p (acc ++ [(q, xs)]) =
      match get_group p acc with
      | some ys => some ys
      | none => if q == p then some xs else none := by
  induction acc with
  | nil => rfl
  | cons g gs ih =>
    rw [List.cons_append, get_group_cons, get_group_cons]
    by_cases hg : (g.1 == p) = true
    · rw [if_pos hg, if_pos hg]
    · rw [if_neg hg, if_neg hg]
      exact ih

theorem get_group_map_upd {p : ℤ} {x : String} {acc : List (ℤ × List String)}
    (h : acc.any (fun g => g.1 == p) = true) :
    get_group p (acc.map (fun g => if g.1 == p then (g.1, g.2 ++ [x]) else g)) =
      some ((get_group p acc).getD [] ++ [x]) := by
  induction acc with
  | nil => simp at h
  | cons g gs ih =>
    rw [List.map_cons]
    by_cases hg : (g.1 == p) = true
    · rw [if_pos hg, get_group_cons, get_group_cons, if_pos hg]
      simp only [if_pos hg, Option.getD_some]
    · rw [if_neg hg, get_group_cons, get_group_cons, if_neg hg, if_neg hg]
      rw [List.any_cons] at h
      rcases Bool.or_eq_true_iff.mp h with h | h
      · exact absurd h hg
      · exact ih h

theorem get_group_map_ne {p : ℤ} {e : DocumentProcessor.Evidence}
    (hne : p ≠ e.page_number) (acc : List (ℤ × List String)) :
    get_group p (acc.map (fun g =>
      if g.1 == e.page_number then (g.1, g.2 ++ [format_element e]) else g)) =
      get_group p acc := by
  induction acc with
  | nil => rfl
  | cons g gs ih =>
    rw [List.map_cons]
    by_cases hg : (g.1 == e.page_number) = true
    · have hg1 : g.1 = e.page_number := beq_iff_eq.mp hg
      have hgp : ¬ (g.1 == p) = true := fun hb => hne ((beq_iff_eq.mp hb).symm.trans hg1)
      rw [if_pos hg, get_group_cons, get_group_cons, if_neg hgp, if_neg hgp]
      exact ih
    · rw [if_neg hg, get_group_cons, get_group_cons]
      by_cases hgp : (g.1 == p) = true
      · rw [if_pos hgp, if_pos hgp]
      · rw [if_neg hgp, if_neg hgp]
        exact ih

theorem get_group_add_context_same (acc : List (ℤ × List String))
    (e : DocumentProcessor.Evidence) :
    get_group e.page_number (add_context acc e) =
      some ((get_group e.page_number acc).getD [] ++ [format_element e]) := by
  unfold add_context
  cases hany : acc.any (fun g => g.1 == e.page_number) with
  | true =>
    rw [if_pos rfl]
    exact get_group_map_upd hany
  | false =>
    rw [if_neg Bool.false_ne_true]
    rw [get_group_append_single, get_group_none_of_any_false hany]
    simp

theorem get_group_add_context_ne (acc : List (ℤ × List String))
    (e : DocumentProcessor.Evidence) {p : ℤ} (hne : p ≠ e.page_number) :
    get_group p (add_context acc e) = get_group p acc := by
  unfold add_context
  cases hany : acc.any (fun g => g.1 == e.page_number) with
  | true =>
    rw [if_pos rfl]
    exact get_group_map_ne hne acc
  | false =>
    rw [if_neg Bool.false_ne_true]
    rw [get_group_append_single]
    have hqp : ¬ (e.page_number == p) = true := fun hb => hne (beq_iff_eq.mp hb).symm
    cases hacc : get_group p acc with
    | none =>
      simp only []
      rw [if_neg hqp]
    | some ys => simp

theorem get_group_foldl :
    ∀ (es : List DocumentProcessor.Evidence) (acc : List (ℤ × List String)) (p : ℤ),
      get_group p (es.foldl add_context acc) =
        match get_group p acc with
        | some xs =>
          some (xs ++ (es.filter (fun e => e.page_number == p)).map format_element)
        | none =>
          if (es.filter (fun e => e.page_number == p)) = [] then none
          else some ((es.filter (fun e => e.page_number == p)).map format_element) := by
  intro es
  induction es with
  | nil =>
    intro acc p
    cases hg : get_group p acc <;> simp [hg]
  | cons e es ih =>
    intro acc p
    rw [List.foldl_cons, ih]
    by_cases hp : (e.page_number == p) = true
    · have hpe : p = e.page_number := (beq_iff_eq.mp hp).symm
      rw [List.filter_cons, if_pos hp]
      subst hpe
      rw [get_group_add_context_same]
      cases hg : get_group e.page_number acc with
      | some xs => simp [hg]
      | none => simp [hg]
    · have hne : p ≠ e.page_number := fun he => hp (beq_iff_eq.mpr he.symm)
      rw [List.filter_cons, if_neg hp]
      rw [get_group_add_context_ne acc e hne]

theorem retry_all_transient {α : Type} (f : ℕ → Except String α) (es : ℕ → String)
    (j : ℕ → ℚ) (hf : ∀ i, f i = .error (es i))
    (ht : ∀ i, is_transient_message (es i) = true) :
    retry_with_backoff f 3 1 j = (none, [1 * 2 ^ 0 + j 0, 1 * 2 ^ 1 + j 1], 3) := by
  unfold retry_with_backoff
  unfold retry_loop
  rw [hf 0]
  simp only [ht 0, if_true]
  unfold retry_loop
  rw [hf 1]
  simp only [ht 1, if_true]
  unfold retry_loop
  rw [hf 2]
  simp only [ht 2, if_true]
  norm_num

theorem retry_first_ok {α : Type} (f : ℕ → Except String α) (v : α) (j : ℕ → ℚ)
    (hf : f 0 = .ok v) : retry_with_backoff f 3 1 j = (some v, [], 1) := by
  unfold retry_with_backoff retry_loop
  rw [hf]

theorem retry_nontransient {α : Type} (f : ℕ → Except String α) (e : String) (j : ℕ → ℚ)
    (hf : f 0 = .error e) (ht : is_transient_message e = false) :
    retry_with_backoff f 3 1 j = (none, [], 1) := by
  unfold retry_with_backoff retry_loop
  rw [hf]
  simp only [ht]
  rw [if_neg Bool.false_ne_true]

end AIProcessor

theorem list_all_of_all_filter {α : Type} {l : List α} {p r : α → Bool}
    (h : l.all r = true) : (l.filter p).all r = true := by
  rw [List.all_eq_true] at *
  intro x hx
  exact h x (List.mem_of_mem_filter hx)

theorem list_all_filter_self {α : Type} (l : List α) (p : α → Bool) :
    (l.filter p).all p = true := by
  rw [List.all_eq_true]
  intro x hx
  exact List.of_mem_filter hx

/-- **C2.** Page extraction emits elements typed `TEXT` or `FLOWCHART`, but the
ingestion validator accepts only `ALL_TEXT` and `FLOWCHART`, so extracted
`TEXT` elements are always rejected (skipped with a warning, never persisted):
the persisted elements are exactly the extracted `FLOWCHART` elements, and
every vector-indexed element is typed `FLOWCHART`. -/
theorem claim_C2_theorem :
    ∀ (args : AIProcessor.PageArgs) (embed : String → Option (List ℚ)),
      DocumentProcessor.validate_element_type "TEXT" = false ∧
      DocumentProcessor.ingest_elements (AIProcessor.process_png_page args) =
        (AIProcessor.process_png_page args).filter
          (fun e => e.element_type == "FLOWCHART") ∧
      (DocumentProcessor.indexed_elements (AIProcessor.process_png_page args) embed).all
        (fun e => e.element_type == "FLOWCHART") = true := by
  intro args embed
  have hmain :
      DocumentProcessor.ingest_elements (AIProcessor.process_png_page args) =
        (AIProcessor.process_png_page args).filter
          (fun e => e.element_type == "FLOWCHART") := by
    obtain ⟨et, fl⟩ := args
    cases et with
    | none =>
      cases fl with
      | none => rfl
      | some fc =>
        simp only [AIProcessor.process_png_page, DocumentProcessor.ingest_elements]
        split_ifs <;> simp +decide [DocumentProcessor.validate_element_type]
    | some tb =>
      cases fl with
      | none =>
        simp only [AIProcessor.process_png_page, DocumentProcessor.ingest_elements]
        split_ifs <;> simp +decide [DocumentProcessor.validate_element_type]
      | some fc =>
        simp only [AIProcessor.process_png_page, DocumentProcessor.ingest_elements]
        split_ifs <;> simp +decide [DocumentProcessor.validate_element_type]
  refine ⟨by decide, hmain, ?_⟩
  unfold DocumentProcessor.indexed_elements
  rw [hmain]
  exact list_all_of_all_filter (list_all_filter_self _ _)

/-- **C4.** The type-based boost: a `FLOWCHART` hit with raw similarity `s`
gets boosted similarity `min (s * 1.1) 1` (boost factor 1.1 > 1, clamped to
1.0); any other element type keeps its raw similarity unchanged. -/
theorem claim_C4_theorem :
    (∀ s : ℚ, DocumentProcessor.boost_score "FLOWCHART" s = min (s * (11/10)) 1) ∧
    (∀ (t : String) (s : ℚ), t ≠ "FLOWCHART" → DocumentProcessor.boost_score t s = s) ∧
    (1 : ℚ) < 11/10 := by
  refine ⟨fun s => rfl, fun t s ht => ?_, by norm_num⟩
  unfold DocumentProcessor.boost_score
  rw [if_neg ht]

/-- Witness for C4 at a concrete non-flowchart input. -/
theorem claim_C4_witness : DocumentProcessor.boost_score "TEXT" (3/5) = 3/5 :=
  claim_C4_theorem.2.1 "TEXT" (3/5) (by decide)

/-- **C6.** Whenever the query embedding is falsy, the vector store returns
null, or the store returns an empty metadata list, `search_similar_content`
returns the empty list (a normal outcome, not an error). -/
theorem claim_C6_theorem :
    ∀ (res : Option DocumentProcessor.SearchResult)
      (lookup : ℕ → Option (DocumentProcessor.ElementRow × ℤ))
      (qeL : List ℚ) (ds : List (List ℚ)) (rest : List (List DocumentProcessor.Meta)),
      DocumentProcessor.search_similar_content none res lookup = [] ∧
      DocumentProcessor.search_similar_content (some []) res lookup = [] ∧
      (∀ qe2 : Option (List ℚ),
        DocumentProcessor.search_similar_content qe2 none lookup = []) ∧
      DocumentProcessor.search_similar_content (some qeL) (some ⟨[], ds⟩) lookup = [] ∧
      DocumentProcessor.search_similar_content (some qeL) (some ⟨[] :: rest, ds⟩) lookup
        = [] := by
  intro res lookup qeL ds rest
  refine ⟨rfl, rfl, ?_, ?_, ?_⟩
  · intro qe2
    cases qe2 with
    | none => rfl
    | some l =>
      cases l with
      | nil => rfl
      | cons a as => rfl
  · cases qeL with
    | nil => rfl
    | cons a as => rfl
  · cases qeL with
    | nil => rfl
    | cons a as => rfl

/-- **C8.** `delete_document_embeddings` is idempotent: a second call with the
same filter leaves the store unchanged and still returns true, the first call
leaves zero matching records, and a call matching zero records returns true
rather than erroring. -/
theorem claim_C8_theorem :
    ∀ (docId : String) (records : List VectorDB.EmbeddingRecord),
      (VectorDB.delete_document_embeddings docId
        (VectorDB.delete_document_embeddings docId records).1).1 =
        (VectorDB.delete_document_embeddings docId records).1 ∧
      (VectorDB.delete_document_embeddings docId records).2 = true ∧
      (VectorDB.delete_document_embeddings docId
        (VectorDB.delete_document_embeddings docId records).1).2 = true ∧
      ((VectorDB.delete_document_embeddings docId records).1.filter
        (fun rec => rec.document_id == docId)) = [] := by
  intro docId records
  refine ⟨?_, rfl, rfl, ?_⟩
  · simp [VectorDB.delete_document_embeddings, List.filter_filter]
  · simp [VectorDB.delete_document_embeddings, List.filter_filter]

/-- The SQL lookup of the spec's worked retrieval scenario: element 1 is a
`TEXT` element on page 1, element 2 a `FLOWCHART` element on page 1,
element 3 a `TEXT` element on page 2. -/
def lookup_scenario : ℕ → Option (DocumentProcessor.ElementRow × ℤ) := fun n =>
  if n = 1 then
    some ({ element_type := "TEXT", plain_text := "teks halaman satu",
            content_json := "cj1" }, 1)
  else if n = 2 then
    some ({ element_type := "FLOWCHART", plain_text := "alur halaman satu",
            content_json := "cj2" }, 1)
  else if n = 3 then
    some ({ element_type := "TEXT", plain_text := "teks halaman dua",
            content_json := "cj3" }, 2)
  else none

/-- The vector-store response of the worked scenario: raw similarities 0.6,
0.55 and 0.9 (cosine distances 0.4, 0.45 and 0.1) for elements 1, 2, 3. -/
def scenario_results : DocumentProcessor.SearchResult :=
  { metadatas := [[⟨some 1⟩, ⟨some 2⟩, ⟨some 3⟩]],
    distances := [[2/5, 9/20, 1/10]] }

theorem scenario_eval :
    DocumentProcessor.search_similar_content (some [1]) (some scenario_results)
        lookup_scenario =
      [{ element_type := "TEXT", plain_text := "teks halaman dua",
         content_json := "cj3", similarity_score := 9/10, page_number := 2,
         element_id := 3 }] := by
  norm_num +decide [DocumentProcessor.search_similar_content,
    DocumentProcessor.collect_hits, lookup_scenario, scenario_results,
    DocumentProcessor.boost_score, round3, round3_int,
    DocumentProcessor.sort_desc, DocumentProcessor.insert_desc,
    DocumentProcessor.dedup_by_page]

theorem search_length_le_one (qe : Option (List ℚ))
    (res : Option DocumentProcessor.SearchResult)
    (lookup : ℕ → Option (DocumentProcessor.ElementRow × ℤ)) :
    (DocumentProcessor.search_similar_content qe res lookup).length ≤ 1 := by
  cases res with
  | none =>
    cases qe with
    | none => simp [DocumentProcessor.search_similar_content]
    | some l =>
      cases l with
      | nil => simp [DocumentProcessor.search_similar_content]
      | cons a as => simp [DocumentProcessor.search_similar_content]
  | some r =>
    rcases DocumentProcessor.search_eval_cases qe r lookup with h | ⟨m1, mrest, hits, hm, hc, h⟩
    · rw [h]; simp
    · rw [h]
      exact List.length_take_le 1 _

/-- **C1 counterexample.** In the spec's worked scenario the code returns a
single evidence item — page 2's `TEXT` element with score 0.9 — not two: the
final truncation is `final_results[:1]`, so the list length is 1, not 2 (page
1's boosted `FLOWCHART` hit is cut off). -/
theorem claim_C1_counterexample :
    DocumentProcessor.search_similar_content (some [1]) (some scenario_results)
        lookup_scenario =
      [{ element_type := "TEXT", plain_text := "teks halaman dua",
         content_json := "cj3", similarity_score := 9/10, page_number := 2,
         element_id := 3 }] ∧
    (DocumentProcessor.search_similar_content (some [1]) (some scenario_results)
        lookup_scenario).length ≠ 2 := by
  refine ⟨scenario_eval, ?_⟩
  rw [scenario_eval]
  simp

/-- **C1 (amended).** In the spec's worked scenario (boost factor 1.1,
relevance floor 0.5) `search_similar_content` returns exactly one evidence
item: page 2's `TEXT` element with score 0.9.  The final truncation is to the
fixed cap 1 (`final_results[:1]`) — not 2 — independent of the caller's
`topK`: every returned evidence list has length at most 1. -/
theorem claim_C1_theorem :
    (∀ (qe : Option (List ℚ)) (res : Option DocumentProcessor.SearchResult)
       (lookup : ℕ → Option (DocumentProcessor.ElementRow × ℤ)),
      (DocumentProcessor.search_similar_content qe res lookup).length ≤ 1) ∧
    DocumentProcessor.search_similar_content (some [1]) (some scenario_results)
        lookup_scenario =
      [{ element_type := "TEXT", plain_text := "teks halaman dua",
         content_json := "cj3", similarity_score := 9/10, page_number := 2,
         element_id := 3 }] :=
  ⟨search_length_le_one, scenario_eval⟩

/-- The SQL lookup of the floor-boundary counterexample: one `TEXT` element
on page 1. -/
def lookup_boundary : ℕ → Option (DocumentProcessor.ElementRow × ℤ) := fun n =>
  if n = 1 then
    some ({ element_type := "TEXT", plain_text := "teks batas",
            content_json := "cjb" }, 1)
  else none

/-- A store response whose single hit has cosine distance 0.4996, i.e. raw
similarity 0.5004: above the 0.5 floor, but rounding to 3 decimals lands
exactly on 0.5. -/
def boundary_results : DocumentProcessor.SearchResult :=
  { metadatas := [[⟨some 1⟩]], distances := [[4996/10000]] }

theorem boundary_eval :
    DocumentProcessor.search_similar_content (some [1]) (some boundary_results)
        lookup_boundary =
      [{ element_type := "TEXT", plain_text := "teks batas",
         content_json := "cjb", similarity_score := 1/2, page_number := 1,
         element_id := 1 }] := by
  norm_num +decide [DocumentProcessor.search_similar_content,
    DocumentProcessor.collect_hits, lookup_boundary, boundary_results,
    DocumentProcessor.boost_score, round3, round3_int,
    DocumentProcessor.sort_desc, DocumentProcessor.insert_desc,
    DocumentProcessor.dedup_by_page]

/-- **C3 counterexample.** A hit with boosted similarity 0.5004 survives the
floor but its stored score is `round(0.5004, 3) = 0.5`, so the returned item
violates `0.5 < similarity_score`: the strict lower bound fails after
rounding. -/
theorem claim_C3_counterexample :
    ¬ (∀ ev ∈ DocumentProcessor.search_similar_content (some [1])
          (some boundary_results) lookup_boundary,
        1/2 < ev.similarity_score) := by
  intro h
  have hm := h _ (by rw [boundary_eval]; exact List.mem_singleton_self _)
  norm_num at hm

/-- **C3 (amended).** Assuming the store reports nonnegative cosine
distances, every returned evidence item's `similarity_score` is
`round3 s` for some boosted similarity `s` with `0.5 < s ≤ 1` (the floor
filter is a hard cutoff on the unrounded boosted score), and the stored
rounded score satisfies `0.5 ≤ similarity_score ≤ 1.0` — the lower bound is
non-strict because scores within 0.0005 above the floor round down to
exactly 0.5. -/
theorem claim_C3_theorem (qe : Option (List ℚ)) (r : DocumentProcessor.SearchResult)
    (lookup : ℕ → Option (DocumentProcessor.ElementRow × ℤ))
    (hd : ∀ dl ∈ r.distances, ∀ d ∈ dl, 0 ≤ d) :
    ∀ ev ∈ DocumentProcessor.search_similar_content qe (some r) lookup,
      1/2 ≤ ev.similarity_score ∧ ev.similarity_score ≤ 1 ∧
      ∃ s : ℚ, 1/2 < s ∧ s ≤ 1 ∧ ev.similarity_score = round3 s := by
  intro ev hev
  rcases DocumentProcessor.search_eval_cases qe r lookup with h | ⟨m1, mrest, hits, hm, hc, h⟩
  · rw [h] at hev
    simp at hev
  · rw [h] at hev
    have hev2 : ev ∈ hits := by
      have h1 := List.take_subset 1 _ hev
      have h2 := DocumentProcessor.mem_sort_desc.mp h1
      have h3 := DocumentProcessor.dedup_subset _ h2
      exact DocumentProcessor.mem_sort_desc.mp h3
    have hd0 : ∀ d ∈ r.distances.headD [], 0 ≤ d := by
      cases hds : r.distances with
      | nil => simp
      | cons dl rest =>
        intro d hdm
        exact hd dl (by rw [hds]; exact List.mem_cons_self _ _) d (by simpa using hdm)
    obtain ⟨s, hs1, hs2, hs3⟩ :=
      DocumentProcessor.collect_hits_scores lookup m1 (r.distances.headD []) hits hc hd0 ev hev2
    exact ⟨hs3 ▸ round3_ge_of_half_lt hs1, hs3 ▸ round3_le_one hs2, s, hs1, hs2, hs3⟩

/-- Witness for C3: the scenario's returned item scores 0.9, within the
amended bounds and equal to a rounded boosted similarity above the floor. -/
theorem claim_C3_witness :
    1/2 ≤ (9/10 : ℚ) ∧ (9/10 : ℚ) ≤ 1 ∧
    ∃ s : ℚ, 1/2 < s ∧ s ≤ 1 ∧ (9/10 : ℚ) = round3 s :=
  claim_C3_theorem (some [1]) scenario_results lookup_scenario
    (by norm_num [scenario_results])
    { element_type := "TEXT", plain_text := "teks halaman dua",
      content_json := "cj3", similarity_score := 9/10, page_number := 2,
      element_id := 3 }
    (by rw [scenario_eval]; exact List.mem_singleton_self _)

/-- **C5.** Given the collected surviving hits, the returned evidence list
has pairwise-distinct page numbers, and each returned item is exactly the
first element carrying its page in the stable descending sort of the hits
(first-seen-wins after the sort, ties kept in original retrieval order by
stability); in particular its score is maximal among the surviving hits of
its page. -/
theorem claim_C5_theorem (qe : Option (List ℚ)) (r : DocumentProcessor.SearchResult)
    (lookup : ℕ → Option (DocumentProcessor.ElementRow × ℤ))
    (hits : List DocumentProcessor.Evidence)
    (hc : DocumentProcessor.collect_hits lookup (r.metadatas.headD [])
        (r.distances.headD []) = some hits) :
    (DocumentProcessor.search_similar_content qe (some r) lookup).Pairwise
      (fun a b => a.page_number ≠ b.page_number) ∧
    ∀ ev ∈ DocumentProcessor.search_similar_content qe (some r) lookup,
      (DocumentProcessor.sort_desc hits).find?
        (fun h2 => h2.page_number == ev.page_number) = some ev ∧
      ∀ h2 ∈ hits, h2.page_number = ev.page_number →
        h2.similarity_score ≤ ev.similarity_score := by
  rcases DocumentProcessor.search_eval_cases qe r lookup with h | ⟨m1, mrest, hits2, hm, hc2, h⟩
  · rw [h]
    exact ⟨List.Pairwise.nil, by simp⟩
  · have hme : r.metadatas.headD [] = m1 := by rw [hm]; rfl
    rw [hme] at hc
    rw [hc] at hc2
    injection hc2 with hc2
    subst hc2
    rw [h]
    constructor
    · have hp1 := DocumentProcessor.dedup_pairwise []
        (DocumentProcessor.sort_desc hits)
      have hp2 := (List.Perm.pairwise_iff (fun hab => Ne.symm hab)
        (DocumentProcessor.sort_desc_perm
          (DocumentProcessor.dedup_by_page [] (DocumentProcessor.sort_desc hits)))).mpr hp1
      exact List.Pairwise.sublist (List.take_sublist 1 _) hp2
    · intro ev hev
      have hev1 : ev ∈ DocumentProcessor.dedup_by_page []
          (DocumentProcessor.sort_desc hits) :=
        DocumentProcessor.mem_sort_desc.mp (List.take_subset 1 _ hev)
      refine ⟨DocumentProcessor.dedup_find hev1, ?_⟩
      intro h2 hh2 hpage
      exact DocumentProcessor.sorted_find_max (DocumentProcessor.sort_desc_sorted hits)
        (DocumentProcessor.dedup_find hev1) h2
        (DocumentProcessor.mem_sort_desc.mpr hh2) (beq_iff_eq.mpr hpage)

/-- The surviving hits the collection loop produces on the worked scenario,
in retrieval order: scores 0.6, 0.605 (boosted), 0.9. -/
def scenario_hits : List DocumentProcessor.Evidence :=
  [{ element_type := "TEXT", plain_text := "teks halaman satu",
     content_json := "cj1", similarity_score := 3/5, page_number := 1,
     element_id := 1 },
   { element_type := "FLOWCHART", plain_text := "alur halaman satu",
     content_json := "cj2", similarity_score := 121/200, page_number := 1,
     element_id := 2 },
   { element_type := "TEXT", plain_text := "teks halaman dua",
     content_json := "cj3", similarity_score := 9/10, page_number := 2,
     element_id := 3 }]

/-- Witness for C5 at the concrete scenario inputs: the returned list has
pairwise-distinct pages and its item (page 2's element) is the first
page-2 entry of the stably sorted hits. -/
theorem claim_C5_witness :
    (DocumentProcessor.search_similar_content (some [1]) (some scenario_results)
        lookup_scenario).Pairwise (fun a b => a.page_number ≠ b.page_number) ∧
    (DocumentProcessor.sort_desc scenario_hits).find?
        (fun h2 => h2.page_number ==
          ({ element_type := "TEXT", plain_text := "teks halaman dua",
             content_json := "cj3", similarity_score := 9/10, page_number := 2,
             element_id := 3 } : DocumentProcessor.Evidence).page_number) =
      some { element_type := "TEXT", plain_text := "teks halaman dua",
             content_json := "cj3", similarity_score := 9/10, page_number := 2,
             element_id := 3 } := by
  have h := claim_C5_theorem (some [1]) scenario_results lookup_scenario
    scenario_hits
    (by norm_num +decide [DocumentProcessor.collect_hits, lookup_scenario,
      scenario_results, scenario_hits, DocumentProcessor.boost_score, round3,
      round3_int])
  exact ⟨h.1, (h.2 _ (by rw [scenario_eval]; exact List.mem_singleton_self _)).1⟩

/-- **C10.** With an empty evidence list the Answer Synthesizer returns the
fixed fallback string without calling the generative model; with a non-empty
list it groups evidence by `page_number` into the prompt context, each page
group holding exactly that page's evidence texts in the Ranker's original
order. -/
theorem claim_C10_theorem :
    (∀ (question : String) (callModel : String → Except String String),
      AIProcessor.answer_question question [] callModel =
        (AIProcessor.empty_context_fallback, false)) ∧
    (∀ (es : List DocumentProcessor.Evidence) (p : ℤ),
      AIProcessor.get_group p (AIProcessor.context_by_page es) =
        (if (es.filter (fun e => e.page_number == p)) = [] then none
         else some ((es.filter (fun e => e.page_number == p)).map
           AIProcessor.format_element))) := by
  constructor
  · intro q f
    rfl
  · intro es p
    unfold AIProcessor.context_by_page
    rw [AIProcessor.get_group_foldl]
    simp only [AIProcessor.get_group]

/-- **C9 (amended).** API calls routed through `_retry_with_backoff` (page
extraction, embedding generation) retry transient-signature errors
(`503`/`UNAVAILABLE`/`500`/`INTERNAL`) with exponential backoff — at most 3
attempts, base delay 1s, delay `base * 2^attempt + jitter` — returning
`none` on exhaustion; a non-transient error fails immediately with `none`;
a first-attempt success makes exactly one call.  `answer_question`'s inline
generative call, however, is not retried: a raised error (transient or not)
is surfaced as an `"Error: ..."` answer string, not as `None`. -/
theorem claim_C9_theorem :
    (∀ (α : Type) (f : ℕ → Except String α) (es : ℕ → String) (j : ℕ → ℚ),
      (∀ i, f i = .error (es i)) → (∀ i, is_transient_message (es i) = true) →
      AIProcessor.retry_with_backoff f 3 1 j =
        (none, [1 * 2 ^ 0 + j 0, 1 * 2 ^ 1 + j 1], 3)) ∧
    (∀ (α : Type) (f : ℕ → Except String α) (e : String) (j : ℕ → ℚ),
      f 0 = .error e → is_transient_message e = false →
      AIProcessor.retry_with_backoff f 3 1 j = (none, [], 1)) ∧
    (∀ (α : Type) (f : ℕ → Except String α) (v : α) (j : ℕ → ℚ),
      f 0 = .ok v → AIProcessor.retry_with_backoff f 3 1 j = (some v, [], 1)) ∧
    (∀ (question err : String) (e0 : DocumentProcessor.Evidence)
       (tl : List DocumentProcessor.Evidence),
      (AIProcessor.answer_question question (e0 :: tl)
        (fun _ => .error err)).1 = "Error: " ++ err) :=
  ⟨fun _ f es j hf ht => AIProcessor.retry_all_transient f es j hf ht,
   fun _ f e j hf ht => AIProcessor.retry_nontransient f e j hf ht,
   fun _ f v j hf => AIProcessor.retry_first_ok f v j hf,
   fun _ _ _ _ => rfl⟩

/-- Witness for C9: all three attempts raise a 503 error, the helper sleeps
1s and 2s (zero jitter) and returns `none` after exactly 3 calls. -/
theorem claim_C9_witness :
    AIProcessor.retry_with_backoff (fun _ => (.error "503" : Except String ℕ)) 3 1
        (fun _ => 0) =
      (none, [1 * 2 ^ 0 + 0, 1 * 2 ^ 1 + 0], 3) :=
  claim_C9_theorem.1 ℕ (fun _ => .error "503") (fun _ => "503") (fun _ => 0)
    (fun _ => rfl) (fun _ => by show is_transient_message "503" = true; decide)

/-- An evidence item used in the C9 counterexample. -/
def probe_evidence : DocumentProcessor.Evidence :=
  { element_type := "TEXT", plain_text := "teks", content_json := "cj",
    similarity_score := 9/10, page_number := 1, element_id := 1 }

/-- **C9 counterexample.** The generative call inside `answer_question` is
not routed through `_retry_with_backoff`: when it raises a transient-signature
error (`"503 UNAVAILABLE"`), the error is not retried and is surfaced to the
caller as the answer string `"Error: 503 UNAVAILABLE"` — not as a null/None
result. -/
theorem claim_C9_counterexample :
    is_transient_message "503 UNAVAILABLE" = true ∧
    AIProcessor.answer_question "pertanyaan" [probe_evidence]
        (fun _ => .error "503 UNAVAILABLE") =
      ("Error: 503 UNAVAILABLE", true) := by
  constructor
  · decide
  · rfl

namespace VectorDB

theorem public_operation_eq {α : Type} (op : ℕ → Except String α)
    (reset : Except String ℕ) (st : VDB) :
    public_operation op reset st =
      ((safe_collection_operation op reset st).1.toOption,
       (safe_collection_operation op reset st).2) := by
  unfold public_operation
  rcases h : safe_collection_operation op reset st with ⟨res, st2, r, a⟩
  cases res with
  | ok v => rfl
  | error e => rfl

theorem safe_operation_bounds {α : Type} (op : ℕ → Except String α)
    (reset : Except String ℕ) (st : VDB) :
    (safe_collection_operation op reset st).2.2.1 ≤ 1 ∧
    (safe_collection_operation op reset st).2.2.2 ≤ 2 := by
  unfold safe_collection_operation
  cases hcol : st.collection with
  | none =>
    simp only []
    have hmsg : is_corruption_message "Vector DB not initialized." = false := by decide
    rw [hmsg]
    rw [if_neg Bool.false_ne_true]
    exact ⟨Nat.zero_le 1, Nat.zero_le 2⟩
  | some c =>
    simp only []
    cases ho : op c with
    | ok v => exact ⟨Nat.zero_le 1, Nat.le_succ 1⟩
    | error e =>
      simp only []
      cases hcor : is_corruption_message e with
      | false =>
        rw [if_neg Bool.false_ne_true]
        exact ⟨Nat.zero_le 1, Nat.le_succ 1⟩
      | true =>
        rw [if_pos rfl]
        cases reset with
        | error er => exact ⟨Nat.le_refl 1, Nat.le_succ 1⟩
        | ok nc =>
          simp only []
          cases hr : op nc with
          | ok v2 => exact ⟨Nat.le_refl 1, Nat.le_refl 2⟩
          | error e2 => exact ⟨Nat.le_refl 1, Nat.le_refl 2⟩

end VectorDB

/-- **C7.** When an operation on the collection raises a corruption-signature
error, the store resets the collection exactly once and retries the operation
exactly once (directly — every wrapped operation performs at most 1 reset and
2 operation attempts, so recovery never recurses); if reset and retry succeed
the retry's result is returned, the state holds the fresh collection, and
`is_healthy` reports true (given the fresh collection answers its count
probe); and every public operation returns the protocol's result with raised
errors mapped to `none`/false, so no exception reaches its caller. -/
theorem claim_C7_theorem {α : Type} (op : ℕ → Except String α)
    (count : ℕ → Except String ℕ) (st : VectorDB.VDB) (c0 newC : ℕ)
    (e : String) (v : α) (k : ℕ)
    (hst : st.collection = some c0)
    (hop : op c0 = .error e)
    (hcor : is_corruption_message e = true)
    (hretry : op newC = .ok v)
    (hcount : count newC = .ok k) :
    VectorDB.public_operation op (.ok newC) st = (some v, ⟨some newC⟩, 1, 2) ∧
    VectorDB.is_healthy ⟨some newC⟩ count = true ∧
    (∀ (β : Type) (op2 : ℕ → Except String β) (reset2 : Except String ℕ)
       (st2 : VectorDB.VDB),
      (VectorDB.safe_collection_operation op2 reset2 st2).2.2.1 ≤ 1 ∧
      (VectorDB.safe_collection_operation op2 reset2 st2).2.2.2 ≤ 2 ∧
      VectorDB.public_operation op2 reset2 st2 =
        ((VectorDB.safe_collection_operation op2 reset2 st2).1.toOption,
         (VectorDB.safe_collection_operation op2 reset2 st2).2)) := by
  have hsafe : VectorDB.safe_collection_operation op (.ok newC) st =
      (.ok v, ⟨some newC⟩, 1, 2) := by
    unfold VectorDB.safe_collection_operation
    rw [hst]
    try simp only []
    rw [hop]
    try simp only []
    rw [hcor, if_pos rfl]
    try simp only []
    rw [hretry]
  refine ⟨?_, ?_, ?_⟩
  · rw [VectorDB.public_operation_eq, hsafe]
    rfl
  · unfold VectorDB.is_healthy
    try simp only []
    rw [hcount]
  · intro β op2 reset2 st2
    exact ⟨(VectorDB.safe_operation_bounds op2 reset2 st2).1,
           (VectorDB.safe_operation_bounds op2 reset2 st2).2,
           VectorDB.public_operation_eq op2 reset2 st2⟩

/-- Witness for C7: a concrete operation that fails with an HNSW corruption
message on the original collection (handle 0) and succeeds on the fresh
collection (handle 1). -/
theorem claim_C7_witness :
    VectorDB.public_operation
        (fun c => if c = 0 then Except.error "hnsw segment reader failure"
                  else Except.ok (42 : ℕ))
        (Except.ok 1) ⟨some 0⟩ = (some 42, ⟨some 1⟩, 1, 2) :=
  (claim_C7_theorem
    (fun c => if c = 0 then Except.error "hnsw segment reader failure"
              else Except.ok (42 : ℕ))
    (fun _ => Except.ok 0) ⟨some 0⟩ 0 1 "hnsw segment reader failure" 42 0
    rfl rfl (by decide) rfl rfl).1
